import Mathlib

/-!
Verification of the CoffeFactory Django application against its
natural-language specification.  Shallow embedding: Django model rows
become Lean structures, Decimal arithmetic becomes exact rational
arithmetic over `ℚ`, the movement table becomes a `List`, and methods
that can raise become `Except String`-valued functions.  Columns that no
modelled method reads (timestamps, audit columns, free-text fields not
used by the logic) are elided.
-/

namespace CoffeeFactory

/-! ## Inventory: `src/inventory/models.py` -/

/-- A row of `inventory.StockMovement`.  The `material` and `product`
foreign keys are nullable ids; `movement_type` and `reason` are the
CharField choice strings of the source. -/
structure StockMovement where
  material : Option Nat
  product : Option Nat
  movement_type : String
  reason : String
  quantity : ℚ
  unit_cost : Option ℚ
  total_cost : Option ℚ
  document_number : String
  notes : String
deriving DecidableEq, Repr

/-- Django `stock_movements.aggregate(total=Sum(quantity))`: `None` on an
empty queryset, otherwise the sum of the `quantity` column. -/
def sumQuantity (ms : List StockMovement) : Option ℚ :=
  match ms with
  | [] => none
  | _ => some ((ms.map (fun m => m.quantity)).sum)

/-- Python `x or 0` applied to the aggregate result: `0` for `None`, and
(by Decimal falsiness) also `0` for a zero sum. -/
def orZero : Option ℚ → ℚ
  | none => 0
  | some v => if v = 0 then 0 else v

/-- A row of `inventory.Material` (columns the modelled methods read). -/
structure Material where
  id : Nat
  code : String
  name : String
  cost_per_unit : ℚ
deriving DecidableEq, Repr

/-- A row of `inventory.Product` (columns the modelled methods read). -/
structure Product where
  id : Nat
  code : String
  name : String
  cost_per_unit : ℚ
deriving DecidableEq, Repr

/-- The `stock_movements` reverse relation of a material: the movements
of the table whose `material` foreign key points at it. -/
def materialMovements (db : List StockMovement) (m : Material) : List StockMovement :=
  db.filter (fun mv => mv.material = some m.id)

/-- The `stock_movements` reverse relation of a product. -/
def productMovements (db : List StockMovement) (p : Product) : List StockMovement :=
  db.filter (fun mv => mv.product = some p.id)

/-- `Material.current_stock`: aggregate the related movements with
`Sum(quantity)` and apply `or 0`. -/
def Material.current_stock (db : List StockMovement) (m : Material) : ℚ :=
  orZero (sumQuantity (materialMovements db m))

/-- `Product.current_stock`: same computation over the product relation. -/
def Product.current_stock (db : List StockMovement) (p : Product) : ℚ :=
  orZero (sumQuantity (productMovements db p))

/-- `StockMovement.clean`: reject a movement with neither or both of
`material` and `product` set, then flip the sign of `quantity` so that
`out` movements are non-positive and `in` movements non-negative. -/
def StockMovement.clean (m : StockMovement) : Except String StockMovement :=
  if m.material = none ∧ m.product = none then
    .error "Deve ser especificado um material ou produto."
  else if m.material ≠ none ∧ m.product ≠ none then
    .error "Não é possível especificar material e produto ao mesmo tempo."
  else if m.movement_type = "out" ∧ m.quantity > 0 then
    .ok { m with quantity := -m.quantity }
  else if m.movement_type = "in" ∧ m.quantity < 0 then
    .ok { m with quantity := -m.quantity }
  else
    .ok m

/-- Python truthiness of a nullable Decimal column: `False` for `None`
and for zero. -/
def truthy : Option ℚ → Bool
  | none => false
  | some v => v ≠ 0

/-- `StockMovement.save`: run `clean`, then, when `unit_cost` is truthy
and `total_cost` is not, store `total_cost = abs(quantity) * unit_cost`
(with the quantity already sign-adjusted by `clean`). -/
def StockMovement.save (m : StockMovement) : Except String StockMovement :=
  match m.clean with
  | .error e => .error e
  | .ok m1 =>
    if truthy m1.unit_cost ∧ ¬ truthy m1.total_cost then
      .ok { m1 with total_cost := some (|m1.quantity| * m1.unit_cost.getD 0) }
    else
      .ok m1

/-- Saving a movement against the movement table: a validation failure
raises, so the table is returned unchanged together with the message;
on success the cleaned row is appended. -/
def saveMovement (db : List StockMovement) (m : StockMovement) :
    List StockMovement × Option String :=
  match m.save with
  | .error e => (db, some e)
  | .ok m1 => (db ++ [m1], none)

/-- Whether `StockMovement.save` raises a validation error. -/
def saveFails (m : StockMovement) : Bool :=
  match m.save with
  | .error _ => true
  | .ok _ => false

/-! ## Sales: `src/sales/models.py` -/

/-- A row of `sales.SalesOrderItem` (columns the modelled methods read). -/
structure SalesOrderItem where
  quantity : ℚ
  unit_price : ℚ
  discount_percentage : ℚ
  discount_amount : ℚ
  total_price : ℚ
  total_cost : ℚ
  delivered_quantity : ℚ
deriving DecidableEq, Repr

/-- `SalesOrderItem.save`: when the item discount percentage is positive,
recompute `discount_amount = quantity * unit_price * discount_percentage / 100`;
in every case store `total_price = quantity * unit_price - discount_amount`.
(The trailing call of the parent order `calculate_totals` is modelled by
composing with `SalesOrder.calculate_totals` at the order level.) -/
def SalesOrderItem.save (it : SalesOrderItem) : SalesOrderItem :=
  let da :=
    if it.discount_percentage > 0 then
      it.quantity * it.unit_price * it.discount_percentage / 100
    else
      it.discount_amount
  let gross := it.quantity * it.unit_price
  { it with discount_amount := da, total_price := gross - da }

/-- A row of `sales.SalesOrder` together with its `order_items` relation. -/
structure SalesOrder where
  order_items : List SalesOrderItem
  subtotal : ℚ
  discount_percentage : ℚ
  discount_amount : ℚ
  tax_percentage : ℚ
  tax_amount : ℚ
  shipping_cost : ℚ
  total_amount : ℚ
deriving DecidableEq, Repr

/-- `SalesOrder.calculate_totals`: sum the item `total_price` column into
`subtotal`; recompute `discount_amount` only when `discount_percentage > 0`
and `tax_amount` (over the net amount) only when `tax_percentage > 0`;
store `total_amount = net_amount + tax_amount + shipping_cost`. -/
def SalesOrder.calculate_totals (o : SalesOrder) : SalesOrder :=
  let subtotal := (o.order_items.map (fun it => it.total_price)).sum
  let discount_amount :=
    if o.discount_percentage > 0 then subtotal * o.discount_percentage / 100
    else o.discount_amount
  let net_amount := subtotal - discount_amount
  let tax_amount :=
    if o.tax_percentage > 0 then net_amount * o.tax_percentage / 100
    else o.tax_amount
  { o with
    subtotal := subtotal
    discount_amount := discount_amount
    tax_amount := tax_amount
    total_amount := net_amount + tax_amount + o.shipping_cost }

/-! ## Payroll: `src/financial/models.py`, `Payroll.auto_calculate_taxes`.
Decimal and float literals of the source are modelled as exact rationals. -/

/-- A row of `financial.Payroll` (columns `auto_calculate_taxes` touches). -/
structure Payroll where
  gross_salary : ℚ
  inss_amount : ℚ
  irrf_amount : ℚ
deriving DecidableEq, Repr

/-- `Payroll.auto_calculate_taxes`: pick the INSS rate from the 2024
bracket table of the gross salary, cap the INSS at 908.85, then compute
the IRRF of the taxable income (gross minus INSS) from the progressive
table with fixed deductions and clamp it at zero. -/
def Payroll.auto_calculate_taxes (p : Payroll) : Payroll :=
  let inss_rate : ℚ :=
    if p.gross_salary ≤ 1412 then 75 / 1000
    else if p.gross_salary ≤ 266668 / 100 then 9 / 100
    else if p.gross_salary ≤ 400003 / 100 then 12 / 100
    else 14 / 100
  let inss_amount := min (p.gross_salary * inss_rate) (90885 / 100)
  let taxable_income := p.gross_salary - inss_amount
  let irrf_amount :=
    if taxable_income ≤ 2112 then 0
    else if taxable_income ≤ 282665 / 100 then taxable_income * (75 / 1000) - 1584 / 10
    else if taxable_income ≤ 375105 / 100 then taxable_income * (15 / 100) - 3704 / 10
    else if taxable_income ≤ 466468 / 100 then taxable_income * (225 / 1000) - 65173 / 100
    else taxable_income * (275 / 1000) - 88496 / 100
  { p with inss_amount := inss_amount, irrf_amount := max 0 irrf_amount }

/-- The INSS bracket rate exactly as the claim words it: 7.5 percent up
to 1412, 9 percent up to 2666.68, 12 percent up to 4000.03, 14 percent
above. -/
def claimInssRate (gross : ℚ) : ℚ :=
  if gross ≤ 1412 then 75 / 1000
  else if gross ≤ 266668 / 100 then 9 / 100
  else if gross ≤ 400003 / 100 then 12 / 100
  else 14 / 100

/-- The four-bracket IRRF table with fixed deductions the claim refers
to, as a function of the taxable income. -/
def claimIrrfTable (taxable : ℚ) : ℚ :=
  if taxable ≤ 2112 then 0
  else if taxable ≤ 282665 / 100 then taxable * (75 / 1000) - 1584 / 10
  else if taxable ≤ 375105 / 100 then taxable * (15 / 100) - 3704 / 10
  else if taxable ≤ 466468 / 100 then taxable * (225 / 1000) - 65173 / 100
  else taxable * (275 / 1000) - 88496 / 100

/-! ## Production: `src/production/models.py` -/

/-- A row of `production.RecipeItem` with its `material` foreign key
resolved. -/
structure RecipeItem where
  material : Material
  quantity : ℚ
deriving DecidableEq, Repr

/-- A row of `production.Recipe` with its `recipe_items` relation. -/
structure Recipe where
  yield_quantity : ℚ
  recipe_items : List RecipeItem
deriving DecidableEq, Repr

/-- A row of `production.ProductionOrder` (columns the modelled methods
read), with its `recipe` foreign key resolved. -/
structure ProductionOrder where
  recipe : Recipe
  planned_quantity : ℚ
  order_number : String
deriving DecidableEq, Repr

/-- One entry of the list `ProductionOrder.materials_needed` builds. -/
structure MaterialNeed where
  material : Material
  quantity_needed : ℚ
  available_stock : ℚ
  shortage : ℚ
deriving DecidableEq, Repr

/-- `ProductionOrder.materials_needed`: scale every recipe item by
`planned_quantity / yield_quantity` and report, per material, the needed
quantity, the available stock and the shortage
`max(0, needed - available)`. -/
def ProductionOrder.materials_needed (db : List StockMovement) (po : ProductionOrder) :
    List MaterialNeed :=
  let multiplier := po.planned_quantity / po.recipe.yield_quantity
  po.recipe.recipe_items.map (fun item =>
    { material := item.material
      quantity_needed := item.quantity * multiplier
      available_stock := Material.current_stock db item.material
      shortage := max 0 (item.quantity * multiplier - Material.current_stock db item.material) })

/-- `ProductionOrder.can_start_production`: every reported shortage is
zero. -/
def ProductionOrder.can_start_production (db : List StockMovement) (po : ProductionOrder) :
    Bool :=
  (po.materials_needed db).all (fun mn => decide (mn.shortage = 0))

/-- The movement `ProductionOrder.reserve_materials` hands to
`StockMovement.objects.create` for one recipe item. -/
def reservationMovement (po : ProductionOrder) (multiplier : ℚ) (item : RecipeItem) :
    StockMovement :=
  { material := some item.material.id
    product := none
    movement_type := "out"
    reason := "production"
    quantity := -(item.quantity * multiplier)
    unit_cost := some item.material.cost_per_unit
    total_cost := none
    document_number := po.order_number
    notes := "Reserva para OP " ++ po.order_number }

/-- The creation loop of `reserve_materials`: each
`StockMovement.objects.create` runs `StockMovement.save`, and a
validation error propagates. -/
def createReservations (po : ProductionOrder) (multiplier : ℚ) :
    List RecipeItem → List StockMovement → Except String (List StockMovement)
  | [], db => .ok db
  | item :: rest, db =>
    match (reservationMovement po multiplier item).save with
    | .error e => .error e
    | .ok m1 => createReservations po multiplier rest (db ++ [m1])

/-- The row `StockMovement.save` stores for a reservation movement: the
quantity is already non-positive, so only `total_cost` is filled in, and
only when the material unit cost is truthy (non-zero). -/
def savedReservation (po : ProductionOrder) (multiplier : ℚ) (item : RecipeItem) :
    StockMovement :=
  if item.material.cost_per_unit ≠ 0 then
    { reservationMovement po multiplier item with
      total_cost := some (|(reservationMovement po multiplier item).quantity| *
        item.material.cost_per_unit) }
  else
    reservationMovement po multiplier item

/-- `ProductionOrder.reserve_materials`: raise when production cannot
start, otherwise create one outgoing movement per recipe item. -/
def ProductionOrder.reserve_materials (db : List StockMovement) (po : ProductionOrder) :
    Except String (List StockMovement) :=
  if ¬ po.can_start_production db then
    .error "Insufficient materials to start production"
  else
    let multiplier := po.planned_quantity / po.recipe.yield_quantity
    createReservations po multiplier po.recipe.recipe_items db

/-! ## Financial ledger records: `src/financial/models.py`.
`AccountsReceivable.make_payment` and `AccountsPayable.make_payment` are
textually identical in the source apart from the payment record class;
both are embedded. -/

/-- A row of `financial.AccountsReceivable` (columns the modelled
methods read). -/
structure AccountsReceivable where
  original_amount : ℚ
  interest_amount : ℚ
  fine_amount : ℚ
  discount_amount : ℚ
  paid_amount : ℚ
  status : String
  payment_date : Option Int
  payment_method : String
  reference_number : String
deriving DecidableEq, Repr

/-- `AccountsReceivable.total_amount`:
`original + interest + fine - discount`. -/
def AccountsReceivable.total_amount (r : AccountsReceivable) : ℚ :=
  r.original_amount + r.interest_amount + r.fine_amount - r.discount_amount

/-- A row of `financial.AccountsReceivablePayment`. -/
structure AccountsReceivablePayment where
  amount : ℚ
  payment_date : Int
  payment_method : String
  reference_number : String
deriving DecidableEq, Repr

/-- `AccountsReceivable.make_payment`: reject a non-positive amount and
an overpayment; otherwise create a payment record, add the amount to
`paid_amount`, move `status` to `paid` (stamping `payment_date`) when the
total is reached and to `partially_paid` when the paid amount is
positive, and store the payment method and (when non-empty) the
reference number.  Dates are opaque integers; the `timezone.now()`
default is modelled by the caller passing the current date. -/
def AccountsReceivable.make_payment (r : AccountsReceivable) (amount : ℚ)
    (payment_method reference_number : String) (payment_date : Int) :
    Except String (AccountsReceivable × AccountsReceivablePayment) :=
  if amount ≤ 0 then
    .error "Payment amount must be positive"
  else if r.paid_amount + amount > r.total_amount then
    .error "Payment amount exceeds total amount"
  else
    let payment : AccountsReceivablePayment :=
      { amount := amount
        payment_date := payment_date
        payment_method := payment_method
        reference_number := reference_number }
    let r1 := { r with paid_amount := r.paid_amount + amount }
    let r2 :=
      if r1.paid_amount ≥ r1.total_amount then
        { r1 with status := "paid", payment_date := some payment_date }
      else if r1.paid_amount > 0 then
        { r1 with status := "partially_paid" }
      else r1
    let r3 := { r2 with
      payment_method := payment_method
      reference_number := if reference_number ≠ "" then reference_number
                          else r2.reference_number }
    .ok (r3, payment)

/-- A row of `financial.AccountsPayable` (columns the modelled methods
read). -/
structure AccountsPayable where
  original_amount : ℚ
  interest_amount : ℚ
  fine_amount : ℚ
  discount_amount : ℚ
  paid_amount : ℚ
  status : String
  payment_date : Option Int
  payment_method : String
  reference_number : String
deriving DecidableEq, Repr

/-- `AccountsPayable.total_amount`:
`original + interest + fine - discount`. -/
def AccountsPayable.total_amount (r : AccountsPayable) : ℚ :=
  r.original_amount + r.interest_amount + r.fine_amount - r.discount_amount

/-- A row of `financial.AccountsPayablePayment`. -/
structure AccountsPayablePayment where
  amount : ℚ
  payment_date : Int
  payment_method : String
  reference_number : String
deriving DecidableEq, Repr

/-- `AccountsPayable.make_payment`: textually the same method as the
receivable one. -/
def AccountsPayable.make_payment (r : AccountsPayable) (amount : ℚ)
    (payment_method reference_number : String) (payment_date : Int) :
    Except String (AccountsPayable × AccountsPayablePayment) :=
  if amount ≤ 0 then
    .error "Payment amount must be positive"
  else if r.paid_amount + amount > r.total_amount then
    .error "Payment amount exceeds total amount"
  else
    let payment : AccountsPayablePayment :=
      { amount := amount
        payment_date := payment_date
        payment_method := payment_method
        reference_number := reference_number }
    let r1 := { r with paid_amount := r.paid_amount + amount }
    let r2 :=
      if r1.paid_amount ≥ r1.total_amount then
        { r1 with status := "paid", payment_date := some payment_date }
      else if r1.paid_amount > 0 then
        { r1 with status := "partially_paid" }
      else r1
    let r3 := { r2 with
      payment_method := payment_method
      reference_number := if reference_number ≠ "" then reference_number
                          else r2.reference_number }
    .ok (r3, payment)

/-- `make_payment` against the receivable row and its payment table: a
raise leaves both unchanged; success stores the updated row and appends
the payment record. -/
def AccountsReceivable.make_payment_db (r : AccountsReceivable)
    (payments : List AccountsReceivablePayment) (amount : ℚ)
    (payment_method reference_number : String) (payment_date : Int) :
    AccountsReceivable × List AccountsReceivablePayment × Option String :=
  match r.make_payment amount payment_method reference_number payment_date with
  | .error e => (r, payments, some e)
  | .ok (r2, p) => (r2, payments ++ [p], none)

/-- `make_payment` against the payable row and its payment table. -/
def AccountsPayable.make_payment_db (r : AccountsPayable)
    (payments : List AccountsPayablePayment) (amount : ℚ)
    (payment_method reference_number : String) (payment_date : Int) :
    AccountsPayable × List AccountsPayablePayment × Option String :=
  match r.make_payment amount payment_method reference_number payment_date with
  | .error e => (r, payments, some e)
  | .ok (r2, p) => (r2, payments ++ [p], none)

/-! ## API error handling: `src/api/exceptions.py` and the manual error
responses of `src/api/views.py`. -/

/-- Python/JSON values as DRF response bodies carry them. -/
inductive Json where
  | null : Json
  | str : String → Json
  | num : ℚ → Json
  | boolean : Bool → Json
  | obj : List (String × Json) → Json
  | arr : List Json → Json
deriving Repr, BEq

/-- A shallow rendering of Python `str(...)` on a response payload; only
its application to scalar payloads is observed by the modelled code. -/
def pyStr : Json → String
  | .null => "None"
  | .str s => s
  | .num q => toString q
  | .boolean b => if b then "True" else "False"
  | .obj _ => "dict"
  | .arr _ => "list"

/-- A DRF `Response`: a status code and a JSON body. -/
structure DRFResponse where
  status_code : Nat
  data : Json
deriving Repr, BEq

/-- The `error_codes` dict of `get_error_code`. -/
def error_codes : List (Nat × String) :=
  [(400, "validation_error"),
   (401, "authentication_required"),
   (403, "permission_denied"),
   (404, "not_found"),
   (405, "method_not_allowed"),
   (406, "not_acceptable"),
   (409, "conflict"),
   (422, "unprocessable_entity"),
   (429, "too_many_requests"),
   (500, "internal_server_error"),
   (502, "bad_gateway"),
   (503, "service_unavailable")]

/-- `get_error_code`: look the status code up in the dict, defaulting to
`unknown_error`. -/
def get_error_code (status_code : Nat) : String :=
  (error_codes.lookup status_code).getD "unknown_error"

/-- `get_error_message`: the elif chain over the status code, with the
fallback that pulls `detail` or `message` out of a dict payload. -/
def get_error_message (status_code : Nat) (original_data : Json) : String :=
  if status_code = 400 then "Dados inválidos fornecidos"
  else if status_code = 401 then "Autenticação necessária"
  else if status_code = 403 then "Permissão negada"
  else if status_code = 404 then "Recurso não encontrado"
  else if status_code = 405 then "Método não permitido"
  else if status_code = 409 then "Conflito de dados"
  else if status_code = 422 then "Entidade não processável"
  else if status_code = 429 then "Muitas requisições"
  else if status_code ≥ 500 then "Erro interno do servidor"
  else
    match original_data with
    | .obj fields =>
      match fields.lookup "detail" with
      | some v => pyStr v
      | none =>
        match fields.lookup "message" with
        | some v => pyStr v
        | none => "Erro desconhecido"
    | _ => "Erro desconhecido"

/-- `format_error_details`: a dict keeps its entries minus `detail` and
`message` (an emptied dict stays the empty dict), a list is wrapped under
`errors`, anything else under `raw`. -/
def format_error_details : Json → Json
  | .obj fields =>
    let details := fields.filter (fun kv => kv.fst ≠ "detail" ∧ kv.fst ≠ "message")
    if details.isEmpty then .obj [] else .obj details
  | .arr l => .obj [("errors", .arr l)]
  | d => .obj [("raw", .str (pyStr d))]

/-- `custom_exception_handler`: the DRF default handler result is passed
in (`none` when DRF does not recognise the exception); a recognised
response keeps its status and has its body replaced with the fixed
envelope. -/
def custom_exception_handler (response : Option DRFResponse) : Option DRFResponse :=
  match response with
  | none => none
  | some r =>
    some { r with
      data := .obj [("error", .obj
        [("code", .str (get_error_code r.status_code)),
         ("message", .str (get_error_message r.status_code r.data)),
         ("details", format_error_details r.data)])] }

/-- Modelled from the spec: a body of the fixed
error envelope shape, an `error` object holding `code`, `message` and
`details`. -/
def isErrorEnvelope : Json → Bool
  | .obj [("error", .obj [("code", .str _), ("message", .str _), ("details", _)])] => true
  | _ => false

/-- `ProductionOrderViewSet.start_production` (`src/api/views.py`): a
non-pending order gets a handmade `{error: text}` 400 response; otherwise
the model call runs (its outcome is a parameter here - the model class
does not define `start_production`, so the call itself is abstracted)
with a `ValueError` caught into another handmade 400 response, and
success serialises the order. -/
def start_production_action (order_status : String) (modelCall : Except String Unit)
    (serialized : Json) : DRFResponse :=
  if order_status ≠ "pending" then
    { status_code := 400
      data := .obj [("error", .str "Production order must be in pending status to start")] }
  else
    match modelCall with
    | .error e => { status_code := 400, data := .obj [("error", .str e)] }
    | .ok _ => { status_code := 200, data := serialized }

/-! ## Validators and form `clean` methods: `django.core.validators`
`MinValueValidator` as the models attach it, and the two financial form
`clean` methods of `src/financial/forms.py`. -/

/-- Django `MinValueValidator(limit_value)`. -/
structure MinValueValidator where
  limit_value : ℚ
deriving DecidableEq, Repr

/-- A `MinValueValidator` accepts a value not below its limit. -/
def MinValueValidator.validate (v : MinValueValidator) (x : ℚ) : Bool :=
  decide (v.limit_value ≤ x)

/-- A value passes a validator list when every validator accepts it. -/
def passesValidators (vs : List MinValueValidator) (x : ℚ) : Bool :=
  vs.all (fun v => v.validate x)

/-- Every `validators=[...]` list attached to an amount or percentage
field in the model modules (`grep validators src/*/models.py`): the
plain non-negativity lists with limits 0, 0.001 and 0.01, and the double
`MinValueValidator` list of the three `discount_percentage` fields. -/
def amountFieldValidatorLists : List (List MinValueValidator) :=
  [[⟨0⟩], [⟨0⟩, ⟨100⟩], [⟨1 / 1000⟩], [⟨1 / 100⟩]]

/-- `Customer.discount_percentage` carries
`[MinValueValidator(0), MinValueValidator(100)]` (`src/sales/models.py`). -/
def customerDiscountValidators : List MinValueValidator := [⟨0⟩, ⟨100⟩]

/-- `AccountsReceivableForm.clean`: when both dates are supplied and the
due date precedes the issue date, raise; otherwise return the cleaned
data unchanged.  Dates are opaque integers. -/
def AccountsReceivableForm.clean (issue_date due_date : Option Int) :
    Except String (Option Int × Option Int) :=
  match issue_date, due_date with
  | some i, some d =>
    if d < i then .error "A data de vencimento deve ser posterior à data de emissão."
    else .ok (issue_date, due_date)
  | _, _ => .ok (issue_date, due_date)

/-- `AccountsPayableForm.clean`: same check against the invoice date. -/
def AccountsPayableForm.clean (invoice_date due_date : Option Int) :
    Except String (Option Int × Option Int) :=
  match invoice_date, due_date with
  | some i, some d =>
    if d < i then .error "A data de vencimento deve ser posterior à data da fatura."
    else .ok (invoice_date, due_date)
  | _, _ => .ok (invoice_date, due_date)

/-! ## Delete views: `src/suppliers/views.py`, `src/accounts/views.py`,
`src/inventory/views.py`. -/

/-- The fate of a row under a delete view: still in the table (possibly
updated) or removed from the database. -/
inductive DeleteOutcome (α : Type) where
  | kept : α → DeleteOutcome α
  | removed : DeleteOutcome α
deriving Repr, BEq

/-- A row of `suppliers.Supplier` (representative columns). -/
structure Supplier where
  name : String
  email : String
  phone : String
  is_active : Bool
deriving DecidableEq, Repr

/-- `SupplierDeleteView.delete`: deactivate instead of deleting when the
supplier has related materials (`supplier.materials.exists()`, passed as
a flag), otherwise delete the row. -/
def SupplierDeleteView.delete (s : Supplier) (hasMaterials : Bool) : DeleteOutcome Supplier :=
  if hasMaterials then .kept { s with is_active := false }
  else .removed

/-- A row of `auth.User` (representative columns). -/
structure User where
  username : String
  is_active : Bool
deriving DecidableEq, Repr

/-- A row of `accounts.Employee` (representative columns; the linked
`User` row is passed alongside). -/
structure Employee where
  position : String
  salary : ℚ
  is_active : Bool
deriving DecidableEq, Repr

/-- `EmployeeDeleteView.delete`: always deactivate the employee and its
user; both rows stay in the database. -/
def EmployeeDeleteView.delete (e : Employee) (u : User) :
    DeleteOutcome Employee × DeleteOutcome User :=
  (.kept { e with is_active := false }, .kept { u with is_active := false })

/-- A row of `inventory.Category` (representative columns). -/
structure Category where
  name : String
  description : String
  is_active : Bool
deriving DecidableEq, Repr

/-- `CategoryDeleteView.delete`: soft delete, always. -/
def CategoryDeleteView.delete (c : Category) : DeleteOutcome Category :=
  .kept { c with is_active := false }

/-! ## Concrete records used by witnesses and counterexamples -/

/-- A sample material row. -/
def exMaterial : Material :=
  { id := 1, code := "MAT-001", name := "Cafe verde", cost_per_unit := 10 }

/-- A sample product row. -/
def exProduct : Product :=
  { id := 1, code := "PRD-001", name := "Cafe torrado", cost_per_unit := 25 }

/-- A movement naming neither a material nor a product. -/
def badMov : StockMovement :=
  { material := none, product := none, movement_type := "adjustment",
    reason := "adjustment", quantity := 5, unit_cost := none, total_cost := none,
    document_number := "", notes := "" }

/-- An incoming movement with a zero (set but falsy) unit cost and no
total cost. -/
def zeroCostMov : StockMovement :=
  { material := some 1, product := none, movement_type := "in",
    reason := "purchase", quantity := 2, unit_cost := some 0, total_cost := none,
    document_number := "", notes := "" }

/-- An outgoing movement handed to `save` with a positive quantity. -/
def exOutMov : StockMovement :=
  { material := some 1, product := none, movement_type := "out",
    reason := "sale", quantity := 5, unit_cost := some 2, total_cost := none,
    document_number := "", notes := "" }

/-- What `save` stores for `exOutMov`: the sign flipped and the total
cost filled in. -/
def exOutMovSaved : StockMovement :=
  { exOutMov with quantity := -5, total_cost := some 10 }

/-- A recipe producing 1 unit out of 2 units of the sample material. -/
def exRecipe : Recipe :=
  { yield_quantity := 1, recipe_items := [{ material := exMaterial, quantity := 2 }] }

/-- A production order of 3 units of the sample recipe. -/
def exPO : ProductionOrder :=
  { recipe := exRecipe, planned_quantity := 3, order_number := "OP-001" }

/-- A supplier row with no related materials. -/
def exSupplier : Supplier :=
  { name := "Fornecedor X", email := "", phone := "", is_active := true }

/-- A pending receivable of 100 with nothing paid yet. -/
def exAR : AccountsReceivable :=
  { original_amount := 100, interest_amount := 0, fine_amount := 0, discount_amount := 0,
    paid_amount := 0, status := "pending", payment_date := none, payment_method := "",
    reference_number := "" }

/-- A pending payable of 100 with nothing paid yet. -/
def exAP : AccountsPayable :=
  { original_amount := 100, interest_amount := 0, fine_amount := 0, discount_amount := 0,
    paid_amount := 0, status := "pending", payment_date := none, payment_method := "",
    reference_number := "" }

/-- The receivable after a partial payment of 30. -/
def exAR2 : AccountsReceivable :=
  { exAR with paid_amount := 30, status := "partially_paid", payment_method := "pix" }

/-- The payment record of that partial payment. -/
def exPay : AccountsReceivablePayment :=
  { amount := 30, payment_date := 20240101, payment_method := "pix", reference_number := "" }

/-- A sales order with a stale discount amount: its discount percentage
is zero but a discount amount of 5 is stored from before. -/
def staleOrder : SalesOrder :=
  { order_items := [], subtotal := 0, discount_percentage := 0, discount_amount := 5,
    tax_percentage := 0, tax_amount := 0, shipping_cost := 0, total_amount := 0 }

/-- A sample sales order item. -/
def exItem : SalesOrderItem :=
  { quantity := 3, unit_price := 10, discount_percentage := 10, discount_amount := 0,
    total_price := 27, total_cost := 0, delivered_quantity := 0 }

/-- A sample sales order holding one item. -/
def exOrder : SalesOrder :=
  { order_items := [exItem], subtotal := 0, discount_percentage := 10, discount_amount := 0,
    tax_percentage := 0, tax_amount := 0, shipping_cost := 5, total_amount := 0 }

/-! ## Theorems -/

/-- `or 0` of the quantity aggregate is the plain sum of the quantity
column. -/
theorem orZero_sumQuantity (l : List StockMovement) :
    orZero (sumQuantity l) = (l.map (fun m => m.quantity)).sum := by
  cases l with
  | nil => rfl
  | cons a t =>
    show orZero (some ((a :: t).map (fun m => m.quantity)).sum) = _
    simp only [orZero]
    split
    · rename_i h
      exact h.symm
    · rfl

/-- C1: for every Material and every Product, `current_stock` equals the
sum of the signed quantities of its related StockMovement rows, and
equals 0 when the item has no stock movements. -/
theorem C1_current_stock_sum (db : List StockMovement) (m : Material) (p : Product) :
    Material.current_stock db m = ((materialMovements db m).map (fun mv => mv.quantity)).sum ∧
    Product.current_stock db p = ((productMovements db p).map (fun mv => mv.quantity)).sum ∧
    (materialMovements db m = [] → Material.current_stock db m = 0) ∧
    (productMovements db p = [] → Product.current_stock db p = 0) := by
  refine ⟨orZero_sumQuantity _, orZero_sumQuantity _, ?_, ?_⟩
  · intro h
    unfold Material.current_stock
    rw [h]
    rfl
  · intro h
    unfold Product.current_stock
    rw [h]
    rfl

/-- C1 witness: on an empty movement table the sample material has no
related movements and a stock of 0. -/
theorem C1_current_stock_sum_witness :
    materialMovements [] exMaterial = [] ∧ Material.current_stock [] exMaterial = 0 :=
  ⟨rfl, (C1_current_stock_sum [] exMaterial exProduct).2.2.1 rfl⟩

/-- Whether `StockMovement.clean` raises. -/
theorem clean_error_characterization (m : StockMovement) :
    (match m.clean with | .error _ => true | .ok _ => false) = true ↔
      ((m.material = none ∧ m.product = none) ∨ (m.material ≠ none ∧ m.product ≠ none)) := by
  unfold StockMovement.clean
  split_ifs with h1 h2 h3 h4 <;> simp_all

/-- `save` raises exactly when `clean` does. -/
theorem saveFails_eq_cleanFails (m : StockMovement) :
    saveFails m = (match m.clean with | .error _ => true | .ok _ => false) := by
  unfold saveFails StockMovement.save
  cases m.clean with
  | error e => rfl
  | ok m1 =>
    by_cases hc : truthy m1.unit_cost = true ∧ ¬ truthy m1.total_cost = true
    · simp only [if_pos hc]
    · simp only [if_neg hc]

/-- C9: saving a StockMovement fails exactly when not exactly one of its
material and product fields is set (neither, or both); a failed save
leaves the movement table unchanged. -/
theorem C9_save_exactly_one_target (db : List StockMovement) (m : StockMovement) :
    (saveFails m = true ↔
      ((m.material = none ∧ m.product = none) ∨ (m.material ≠ none ∧ m.product ≠ none))) ∧
    (saveFails m = true → (saveMovement db m).fst = db) := by
  constructor
  · rw [saveFails_eq_cleanFails]
    exact clean_error_characterization m
  · intro hf
    unfold saveMovement
    unfold saveFails at hf
    cases hs : m.save with
    | error e => rfl
    | ok m1 => rw [hs] at hf; cases hf

/-- C9 witness: the movement naming neither item fails to save and
persists nothing. -/
theorem C9_save_exactly_one_target_witness :
    saveFails badMov = true ∧ (saveMovement [] badMov).fst = [] := by
  have h := C9_save_exactly_one_target [] badMov
  have hf : saveFails badMov = true := h.1.mpr (by decide)
  exact ⟨hf, h.2 hf⟩

/-- What a successful `clean` guarantees: only the quantity can change,
its absolute value is kept, and the sign matches the movement type. -/
theorem clean_ok_spec (m m2 : StockMovement) (h : m.clean = .ok m2) :
    m2.movement_type = m.movement_type ∧
    m2.unit_cost = m.unit_cost ∧
    m2.total_cost = m.total_cost ∧
    |m2.quantity| = |m.quantity| ∧
    (m.movement_type = "out" → m2.quantity ≤ 0) ∧
    (m.movement_type = "in" → 0 ≤ m2.quantity) := by
  unfold StockMovement.clean at h
  by_cases h1 : m.material = none ∧ m.product = none
  · rw [if_pos h1] at h
    cases h
  rw [if_neg h1] at h
  by_cases h2 : m.material ≠ none ∧ m.product ≠ none
  · rw [if_pos h2] at h
    cases h
  rw [if_neg h2] at h
  by_cases h3 : m.movement_type = "out" ∧ m.quantity > 0
  · rw [if_pos h3] at h
    obtain rfl : m2 = _ := (Except.ok.inj h).symm
    refine ⟨rfl, rfl, rfl, abs_neg m.quantity,
      fun _ => neg_nonpos.mpr (le_of_lt h3.2), fun hin => ?_⟩
    exact absurd (h3.1.symm.trans hin) (by decide)
  rw [if_neg h3] at h
  by_cases h4 : m.movement_type = "in" ∧ m.quantity < 0
  · rw [if_pos h4] at h
    obtain rfl : m2 = _ := (Except.ok.inj h).symm
    refine ⟨rfl, rfl, rfl, abs_neg m.quantity, fun hout => ?_,
      fun _ => neg_nonneg.mpr (le_of_lt h4.2)⟩
    exact absurd (h4.1.symm.trans hout) (by decide)
  rw [if_neg h4] at h
  obtain rfl : m2 = m := (Except.ok.inj h).symm
  refine ⟨rfl, rfl, rfl, rfl, fun hout => ?_, fun hin => ?_⟩
  · rcases not_and_or.mp h3 with hc | hc
    · exact absurd hout hc
    · exact le_of_not_lt hc
  · rcases not_and_or.mp h4 with hc | hc
    · exact absurd hin hc
    · exact le_of_not_lt hc

/-- What a successful `save` adds on top of `clean`: the stored row is
the cleaned row, with `total_cost` filled in exactly when the cleaned
unit cost is truthy and the cleaned total cost is not. -/
theorem save_ok_cases (m m1 : StockMovement) (h : m.save = .ok m1) :
    ∃ m2, m.clean = .ok m2 ∧
      (((truthy m2.unit_cost = true ∧ ¬ truthy m2.total_cost = true) ∧
          m1 = { m2 with total_cost := some (|m2.quantity| * m2.unit_cost.getD 0) }) ∨
        (¬ (truthy m2.unit_cost = true ∧ ¬ truthy m2.total_cost = true) ∧ m1 = m2)) := by
  unfold StockMovement.save at h
  cases hc : m.clean with
  | error e => rw [hc] at h; cases h
  | ok m2 =>
    simp only [hc] at h
    refine ⟨m2, rfl, ?_⟩
    by_cases hcond : truthy m2.unit_cost = true ∧ ¬ truthy m2.total_cost = true
    · rw [if_pos hcond] at h
      exact Or.inl ⟨hcond, (Except.ok.inj h).symm⟩
    · rw [if_neg hcond] at h
      exact Or.inr ⟨hcond, (Except.ok.inj h).symm⟩

/-- C10 counterexample: an incoming movement with `unit_cost` set to the
Decimal zero (set, but falsy) and no `total_cost` saves successfully and
stores `total_cost = None`, not `abs(quantity) * unit_cost = 0` as the
claim states: the `if self.unit_cost` truthiness test skips a zero unit
cost. -/
theorem C10_sign_and_total_cost_counterexample :
    zeroCostMov.unit_cost ≠ none ∧
    zeroCostMov.total_cost = none ∧
    StockMovement.save zeroCostMov = .ok zeroCostMov ∧
    |zeroCostMov.quantity| * zeroCostMov.unit_cost.getD 0 = 0 ∧
    zeroCostMov.total_cost ≠ some (|zeroCostMov.quantity| * zeroCostMov.unit_cost.getD 0) := by
  refine ⟨by decide, rfl, rfl, by simp [zeroCostMov], by simp [zeroCostMov]⟩

/-- C10 as amended: the sign invariant holds as claimed, and the stored
`total_cost` equals `abs(quantity) * unit_cost` when `unit_cost` is set
to a NON-ZERO value and `total_cost` is unset (Python truthiness, not
mere presence, guards the computation). -/
theorem C10_sign_and_total_cost_amended (m m1 : StockMovement)
    (h : m.save = .ok m1) :
    m1.movement_type = m.movement_type ∧
    (m1.movement_type = "out" → m1.quantity ≤ 0) ∧
    (m1.movement_type = "in" → 0 ≤ m1.quantity) ∧
    |m1.quantity| = |m.quantity| ∧
    (∀ c : ℚ, m.unit_cost = some c → c ≠ 0 → m.total_cost = none →
      m1.total_cost = some (|m1.quantity| * c)) := by
  obtain ⟨m2, hc, hcases⟩ := save_ok_cases m m1 h
  obtain ⟨htype, hunit, htotal, habs, hout, hin⟩ := clean_ok_spec m m2 hc
  have hq : m1.quantity = m2.quantity := by
    rcases hcases with ⟨_, rfl⟩ | ⟨_, rfl⟩ <;> rfl
  have htype1 : m1.movement_type = m2.movement_type := by
    rcases hcases with ⟨_, rfl⟩ | ⟨_, rfl⟩ <;> rfl
  refine ⟨htype1.trans htype, ?_, ?_, ?_, ?_⟩
  · intro hko
    rw [hq]
    exact hout ((htype1.trans htype).symm.trans hko)
  · intro hki
    rw [hq]
    exact hin ((htype1.trans htype).symm.trans hki)
  · rw [hq]
    exact habs
  · intro c hcu hc0 hct
    have hu2 : m2.unit_cost = some c := hunit.trans hcu
    have ht2 : m2.total_cost = none := htotal.trans hct
    rcases hcases with ⟨_, rfl⟩ | ⟨hcond, rfl⟩
    · show some (|m2.quantity| * m2.unit_cost.getD 0) = some (|m2.quantity| * c)
      rw [hu2]
      rfl
    · exfalso
      apply hcond
      constructor
      · rw [hu2]
        simpa [truthy] using hc0
      · rw [ht2]
        simp [truthy]

/-- C10 witness: the sample outgoing movement saves with its quantity
negated, its absolute value kept, and its total cost computed. -/
theorem C10_sign_and_total_cost_witness :
    StockMovement.save exOutMov = .ok exOutMovSaved ∧
    exOutMovSaved.movement_type = "out" ∧
    exOutMovSaved.quantity ≤ 0 ∧
    |exOutMovSaved.quantity| = |exOutMov.quantity| ∧
    exOutMovSaved.total_cost = some (|exOutMovSaved.quantity| * 2) := by
  have hclean : StockMovement.clean exOutMov = .ok { exOutMov with quantity := -5 } := by
    norm_num [StockMovement.clean, exOutMov]
    exact fun h => Option.noConfusion h
  have hs : StockMovement.save exOutMov = .ok exOutMovSaved := by
    unfold StockMovement.save
    rw [hclean]
    norm_num [truthy, exOutMovSaved, exOutMov]
  have h := C10_sign_and_total_cost_amended exOutMov exOutMovSaved hs
  exact ⟨hs, rfl, h.2.1 rfl, h.2.2.2.1,
    h.2.2.2.2 2 rfl (by decide) rfl⟩

/-- C2 counterexample: on an order whose `discount_percentage` is zero
but whose stored `discount_amount` is 5, `calculate_totals` keeps the
stale 5 (the recomputation is guarded by `discount_percentage > 0`), so
neither the claimed discount equation nor the claimed total equation
holds. -/
theorem C2_calculate_totals_counterexample :
    staleOrder.discount_percentage = 0 ∧
    staleOrder.discount_amount = 5 ∧
    (staleOrder.calculate_totals).subtotal = 0 ∧
    (staleOrder.calculate_totals).discount_amount = 5 ∧
    (staleOrder.calculate_totals).discount_amount ≠
      (staleOrder.calculate_totals).subtotal * staleOrder.discount_percentage / 100 ∧
    (staleOrder.calculate_totals).total_amount ≠
      ((staleOrder.calculate_totals).subtotal -
          (staleOrder.calculate_totals).subtotal * staleOrder.discount_percentage / 100) +
        (staleOrder.calculate_totals).tax_amount + staleOrder.shipping_cost := by
  norm_num [SalesOrder.calculate_totals, staleOrder]

/-- C2 as amended: `calculate_totals` sets `subtotal` to the sum of the
item totals, recomputes `discount_amount` (resp. `tax_amount`) by the
claimed formula only when the corresponding percentage is positive and
keeps the stored value otherwise, and always sets
`total_amount = (subtotal - discount_amount) + tax_amount + shipping_cost`;
an item save computes `total_price = quantity * unit_price - discount_amount`,
recomputing the item discount only when its percentage is positive. -/
theorem C2_calculate_totals_amended (o : SalesOrder) (it : SalesOrderItem) :
    (o.calculate_totals).subtotal = (o.order_items.map (fun i => i.total_price)).sum ∧
    (0 < o.discount_percentage →
      (o.calculate_totals).discount_amount =
        (o.calculate_totals).subtotal * o.discount_percentage / 100) ∧
    (¬ 0 < o.discount_percentage →
      (o.calculate_totals).discount_amount = o.discount_amount) ∧
    (0 < o.tax_percentage →
      (o.calculate_totals).tax_amount =
        ((o.calculate_totals).subtotal - (o.calculate_totals).discount_amount) *
          o.tax_percentage / 100) ∧
    (¬ 0 < o.tax_percentage → (o.calculate_totals).tax_amount = o.tax_amount) ∧
    (o.calculate_totals).total_amount =
      ((o.calculate_totals).subtotal - (o.calculate_totals).discount_amount) +
        (o.calculate_totals).tax_amount + o.shipping_cost ∧
    (it.save).total_price = it.quantity * it.unit_price - (it.save).discount_amount ∧
    (0 < it.discount_percentage →
      (it.save).discount_amount = it.quantity * it.unit_price * it.discount_percentage / 100) ∧
    (¬ 0 < it.discount_percentage → (it.save).discount_amount = it.discount_amount) := by
  by_cases hd : 0 < o.discount_percentage <;>
    by_cases ht : 0 < o.tax_percentage <;>
      by_cases hid : 0 < it.discount_percentage <;>
        simp [SalesOrder.calculate_totals, SalesOrderItem.save, hd, ht, hid]

/-- C2 witness: the sample order has a positive discount percentage and
its recomputed discount matches the claimed formula; the sample item
total price is gross minus discount. -/
theorem C2_calculate_totals_amended_witness :
    (0 : ℚ) < exOrder.discount_percentage ∧
    (exOrder.calculate_totals).discount_amount =
      (exOrder.calculate_totals).subtotal * exOrder.discount_percentage / 100 ∧
    (exItem.save).total_price =
      exItem.quantity * exItem.unit_price - (exItem.save).discount_amount := by
  have h := C2_calculate_totals_amended exOrder exItem
  exact ⟨by norm_num [exOrder], h.2.1 (by norm_num [exOrder]), h.2.2.2.2.2.2.1⟩

/-- C3: `auto_calculate_taxes` stores the INSS as the gross salary times
the claimed bracket rate capped at 908.85, and the IRRF as the claimed
bracket table applied to the taxable income (gross minus INSS) clamped
at zero, so the stored IRRF is never negative. -/
theorem C3_auto_calculate_taxes (p : Payroll) :
    (p.auto_calculate_taxes).inss_amount =
      min (p.gross_salary * claimInssRate p.gross_salary) (90885 / 100) ∧
    (p.auto_calculate_taxes).irrf_amount =
      max 0 (claimIrrfTable (p.gross_salary - (p.auto_calculate_taxes).inss_amount)) ∧
    0 ≤ (p.auto_calculate_taxes).irrf_amount ∧
    (p.auto_calculate_taxes).gross_salary = p.gross_salary :=
  ⟨rfl, rfl, le_max_left 0 _, rfl⟩

/-- Projections of the stored reservation row. -/
theorem savedReservation_fields (po : ProductionOrder) (mult : ℚ) (item : RecipeItem) :
    (savedReservation po mult item).quantity = -(item.quantity * mult) ∧
    (savedReservation po mult item).movement_type = "out" ∧
    (savedReservation po mult item).material = some item.material.id := by
  unfold savedReservation
  split_ifs <;> exact ⟨rfl, rfl, rfl⟩

/-- Saving a reservation movement always succeeds (its material is set,
its product is not, and its quantity is already non-positive) and stores
`savedReservation`. -/
theorem reservation_save_eq (po : ProductionOrder) (mult : ℚ) (item : RecipeItem)
    (hq : 0 ≤ item.quantity) (hm : 0 ≤ mult) :
    (reservationMovement po mult item).save = .ok (savedReservation po mult item) := by
  have hq3 : ¬ ((0 : ℚ) < -(item.quantity * mult)) :=
    not_lt.mpr (neg_nonpos.mpr (mul_nonneg hq hm))
  have hclean : (reservationMovement po mult item).clean =
      .ok (reservationMovement po mult item) := by
    unfold StockMovement.clean reservationMovement
    simp [hq3]
  unfold StockMovement.save
  simp only [hclean]
  by_cases hc : item.material.cost_per_unit = 0
  · have hcond : ¬ (truthy (reservationMovement po mult item).unit_cost = true ∧
        ¬ truthy (reservationMovement po mult item).total_cost = true) := by
      simp [reservationMovement, truthy, hc]
    rw [if_neg hcond]
    simp [savedReservation, hc]
  · have hcond : truthy (reservationMovement po mult item).unit_cost = true ∧
        ¬ truthy (reservationMovement po mult item).total_cost = true := by
      simp [reservationMovement, truthy, hc]
    rw [if_pos hcond]
    simp [savedReservation, reservationMovement, hc]

/-- The reservation loop appends exactly the stored reservation rows. -/
theorem createReservations_eq (po : ProductionOrder) (mult : ℚ) (items : List RecipeItem)
    (db : List StockMovement) (h : ∀ it ∈ items, 0 ≤ it.quantity) (hm : 0 ≤ mult) :
    createReservations po mult items db =
      .ok (db ++ items.map (savedReservation po mult)) := by
  induction items generalizing db with
  | nil => simp [createReservations]
  | cons a t ih =>
    have ha : 0 ≤ a.quantity := h a (List.mem_cons_self a t)
    have ht : ∀ it ∈ t, 0 ≤ it.quantity := fun it hit => h it (List.mem_cons_of_mem a hit)
    simp only [createReservations, reservation_save_eq po mult a ha hm]
    rw [ih (db ++ [savedReservation po mult a]) ht]
    simp

/-- `can_start_production` holds exactly when every reported shortage is
zero. -/
theorem can_start_iff (db : List StockMovement) (po : ProductionOrder) :
    po.can_start_production db = true ↔
      ∀ mn ∈ po.materials_needed db, mn.shortage = 0 := by
  simp [ProductionOrder.can_start_production, List.all_eq_true]

/-- Every reported shortage is non-negative. -/
theorem shortage_nonneg (db : List StockMovement) (po : ProductionOrder) :
    ∀ mn ∈ po.materials_needed db, 0 ≤ mn.shortage := by
  intro mn hmn
  unfold ProductionOrder.materials_needed at hmn
  obtain ⟨item, _, rfl⟩ := List.mem_map.mp hmn
  exact le_max_left 0 _

/-- C4: each reported shortage is
`max(0, quantity * (planned / yield) - current_stock)`;
`reserve_materials` fails exactly when some material has a positive
shortage, and otherwise appends, for each recipe item, one outgoing
movement whose quantity is the negation of that item needed quantity.
The hypotheses restate the field validators: a positive recipe yield, a
non-negative planned quantity and non-negative recipe item quantities. -/
theorem C4_shortage_and_reservation (db : List StockMovement) (po : ProductionOrder)
    (hy : 0 < po.recipe.yield_quantity) (hp : 0 ≤ po.planned_quantity)
    (hitems : ∀ it ∈ po.recipe.recipe_items, 0 ≤ it.quantity) :
    ((po.materials_needed db).map (fun mn => mn.shortage) =
      po.recipe.recipe_items.map (fun item =>
        max 0 (item.quantity * (po.planned_quantity / po.recipe.yield_quantity) -
          Material.current_stock db item.material))) ∧
    ((∃ e, po.reserve_materials db = .error e) ↔
      ∃ mn ∈ po.materials_needed db, 0 < mn.shortage) ∧
    (∀ dbOut, po.reserve_materials db = .ok dbOut →
      dbOut.take db.length = db ∧
      (dbOut.drop db.length).map (fun mv => mv.quantity) =
        po.recipe.recipe_items.map (fun item =>
          -(item.quantity * (po.planned_quantity / po.recipe.yield_quantity))) ∧
      (dbOut.drop db.length).map (fun mv => mv.movement_type) =
        po.recipe.recipe_items.map (fun _ => "out") ∧
      (dbOut.drop db.length).map (fun mv => mv.material) =
        po.recipe.recipe_items.map (fun item => some item.material.id)) := by
  have hm : 0 ≤ po.planned_quantity / po.recipe.yield_quantity :=
    div_nonneg hp (le_of_lt hy)
  have hcreate := createReservations_eq po (po.planned_quantity / po.recipe.yield_quantity)
    po.recipe.recipe_items db hitems hm
  refine ⟨?_, ?_, ?_⟩
  · unfold ProductionOrder.materials_needed
    simp [List.map_map, Function.comp]
  · constructor
    · rintro ⟨e, herr⟩
      unfold ProductionOrder.reserve_materials at herr
      by_cases hcs : po.can_start_production db = true
      · rw [if_neg (by simp [hcs])] at herr
        rw [hcreate] at herr
        cases herr
      · obtain ⟨mn, hmn, hne⟩ := by
          have := (not_iff_not.mpr (can_start_iff db po)).mp hcs
          push_neg at this
          exact this
        exact ⟨mn, hmn, lt_of_le_of_ne (shortage_nonneg db po mn hmn) (Ne.symm hne)⟩
    · rintro ⟨mn, hmn, hpos⟩
      have hcs : ¬ po.can_start_production db = true := by
        rw [can_start_iff db po]
        push_neg
        exact ⟨mn, hmn, ne_of_gt hpos⟩
      refine ⟨"Insufficient materials to start production", ?_⟩
      unfold ProductionOrder.reserve_materials
      rw [if_pos (by simp [hcs])]
  · intro dbOut hok
    unfold ProductionOrder.reserve_materials at hok
    by_cases hcs : po.can_start_production db = true
    · rw [if_neg (by simp [hcs]), hcreate] at hok
      obtain rfl : dbOut = _ := (Except.ok.inj hok).symm
      refine ⟨List.take_left db _, ?_, ?_, ?_⟩
      · simp [List.drop_left, List.map_map, Function.comp,
          savedReservation_fields po (po.planned_quantity / po.recipe.yield_quantity)]
      · rw [List.drop_left, List.map_map]
        exact List.map_congr_left (fun item _ =>
          (savedReservation_fields po (po.planned_quantity / po.recipe.yield_quantity) item).2.1)
      · simp [List.drop_left, List.map_map, Function.comp,
          savedReservation_fields po (po.planned_quantity / po.recipe.yield_quantity)]
    · rw [if_pos (by simp [hcs])] at hok
      cases hok

/-- C4 witness: the sample production order needs 6 units of the sample
material, so against an empty movement table it has a positive shortage
and `reserve_materials` raises. -/
theorem C4_shortage_and_reservation_witness :
    (0 : ℚ) < exPO.recipe.yield_quantity ∧
    (0 : ℚ) ≤ exPO.planned_quantity ∧
    (∃ e, exPO.reserve_materials [] = .error e) := by
  have hy : (0 : ℚ) < exPO.recipe.yield_quantity := by norm_num [exPO, exRecipe]
  have hp : (0 : ℚ) ≤ exPO.planned_quantity := by norm_num [exPO]
  have hitems : ∀ it ∈ exPO.recipe.recipe_items, 0 ≤ it.quantity := by
    intro it hit
    simp only [exPO, exRecipe, List.mem_singleton] at hit
    rw [hit]
    norm_num
  have h := C4_shortage_and_reservation [] exPO hy hp hitems
  have hmn : exPO.materials_needed [] =
      [{ material := exMaterial, quantity_needed := 6, available_stock := 0, shortage := 6 }] := by
    norm_num [ProductionOrder.materials_needed, exPO, exRecipe, exMaterial,
      Material.current_stock, materialMovements, sumQuantity, orZero]
  refine ⟨hy, hp, h.2.1.mpr ?_⟩
  refine ⟨{ material := exMaterial, quantity_needed := 6, available_stock := 0, shortage := 6 },
    ?_, by norm_num⟩
  rw [hmn]
  exact List.mem_singleton.mpr rfl

/-- The receivable `make_payment` raises exactly on a non-positive
amount or an overpayment. -/
theorem ar_make_payment_error_iff (r : AccountsReceivable) (amount : ℚ)
    (pm rn : String) (pd : Int) :
    (∃ e, r.make_payment amount pm rn pd = .error e) ↔
      (amount ≤ 0 ∨ r.paid_amount + amount > r.total_amount) := by
  unfold AccountsReceivable.make_payment
  by_cases h1 : amount ≤ 0
  · simp [h1]
  · rw [if_neg h1]
    by_cases h2 : r.paid_amount + amount > r.total_amount
    · simp [h1, h2]
    · simp [h1, h2]

/-- What a successful receivable `make_payment` stores. -/
theorem ar_make_payment_success (r : AccountsReceivable) (amount : ℚ)
    (pm rn : String) (pd : Int) (hr : 0 ≤ r.paid_amount)
    (r2 : AccountsReceivable) (pay : AccountsReceivablePayment)
    (hok : r.make_payment amount pm rn pd = .ok (r2, pay)) :
    r2.paid_amount = r.paid_amount + amount ∧
    r2.total_amount = r.total_amount ∧
    pay.amount = amount ∧
    (r.paid_amount + amount ≥ r.total_amount →
      r2.status = "paid" ∧ r2.payment_date = some pd) ∧
    (r.paid_amount + amount < r.total_amount → r2.status = "partially_paid") := by
  unfold AccountsReceivable.make_payment at hok
  by_cases h1 : amount ≤ 0
  · rw [if_pos h1] at hok
    cases hok
  rw [if_neg h1] at hok
  by_cases h2 : r.paid_amount + amount > r.total_amount
  · rw [if_pos h2] at hok
    cases hok
  rw [if_neg h2] at hok
  have hpos : 0 < r.paid_amount + amount :=
    add_pos_of_nonneg_of_pos hr (not_le.mp h1)
  by_cases h3 : r.paid_amount + amount ≥
      r.original_amount + r.interest_amount + r.fine_amount - r.discount_amount
  · simp [AccountsReceivable.total_amount, h3] at hok
    obtain ⟨hbr, hbp⟩ := hok
    subst hbr
    subst hbp
    refine ⟨rfl, rfl, rfl, fun _ => ⟨rfl, rfl⟩, fun hlt => ?_⟩
    exact absurd h3 (not_le.mpr (by simpa [AccountsReceivable.total_amount] using hlt))
  · simp [AccountsReceivable.total_amount, h3, hpos] at hok
    obtain ⟨hbr, hbp⟩ := hok
    subst hbr
    subst hbp
    refine ⟨rfl, by simp [AccountsReceivable.total_amount], rfl, fun hge => ?_, fun _ => rfl⟩
    exact absurd (by simpa [AccountsReceivable.total_amount] using hge) h3

/-- The payable `make_payment` raises exactly on a non-positive amount
or an overpayment. -/
theorem ap_make_payment_error_iff (r : AccountsPayable) (amount : ℚ)
    (pm rn : String) (pd : Int) :
    (∃ e, r.make_payment amount pm rn pd = .error e) ↔
      (amount ≤ 0 ∨ r.paid_amount + amount > r.total_amount) := by
  unfold AccountsPayable.make_payment
  by_cases h1 : amount ≤ 0
  · simp [h1]
  · rw [if_neg h1]
    by_cases h2 : r.paid_amount + amount > r.total_amount
    · simp [h1, h2]
    · simp [h1, h2]

/-- What a successful payable `make_payment` stores. -/
theorem ap_make_payment_success (r : AccountsPayable) (amount : ℚ)
    (pm rn : String) (pd : Int) (hr : 0 ≤ r.paid_amount)
    (r2 : AccountsPayable) (pay : AccountsPayablePayment)
    (hok : r.make_payment amount pm rn pd = .ok (r2, pay)) :
    r2.paid_amount = r.paid_amount + amount ∧
    r2.total_amount = r.total_amount ∧
    pay.amount = amount ∧
    (r.paid_amount + amount ≥ r.total_amount →
      r2.status = "paid" ∧ r2.payment_date = some pd) ∧
    (r.paid_amount + amount < r.total_amount → r2.status = "partially_paid") := by
  unfold AccountsPayable.make_payment at hok
  by_cases h1 : amount ≤ 0
  · rw [if_pos h1] at hok
    cases hok
  rw [if_neg h1] at hok
  by_cases h2 : r.paid_amount + amount > r.total_amount
  · rw [if_pos h2] at hok
    cases hok
  rw [if_neg h2] at hok
  have hpos : 0 < r.paid_amount + amount :=
    add_pos_of_nonneg_of_pos hr (not_le.mp h1)
  by_cases h3 : r.paid_amount + amount ≥
      r.original_amount + r.interest_amount + r.fine_amount - r.discount_amount
  · simp [AccountsPayable.total_amount, h3] at hok
    obtain ⟨hbr, hbp⟩ := hok
    subst hbr
    subst hbp
    refine ⟨rfl, rfl, rfl, fun _ => ⟨rfl, rfl⟩, fun hlt => ?_⟩
    exact absurd h3 (not_le.mpr (by simpa [AccountsPayable.total_amount] using hlt))
  · simp [AccountsPayable.total_amount, h3, hpos] at hok
    obtain ⟨hbr, hbp⟩ := hok
    subst hbr
    subst hbp
    refine ⟨rfl, by simp [AccountsPayable.total_amount], rfl, fun hge => ?_, fun _ => rfl⟩
    exact absurd (by simpa [AccountsPayable.total_amount] using hge) h3

/-- C5: for a receivable and for a payable, `make_payment` fails exactly
when the amount is non-positive or would overpay the total, leaving the
row and the payment table unchanged; on success it adds the amount to
`paid_amount`, records a payment of that amount, and moves `status` to
`paid` (stamping `payment_date`) when the total is reached, otherwise to
`partially_paid`.  The hypotheses restate the `paid_amount` field
validator (non-negative). -/
theorem C5_make_payment (r : AccountsReceivable) (q : AccountsPayable) (amount : ℚ)
    (pm rn : String) (pd : Int) (ps : List AccountsReceivablePayment)
    (qs : List AccountsPayablePayment)
    (hr : 0 ≤ r.paid_amount) (hq : 0 ≤ q.paid_amount) :
    ((∃ e, r.make_payment amount pm rn pd = .error e) ↔
      (amount ≤ 0 ∨ r.paid_amount + amount > r.total_amount)) ∧
    ((∃ e, r.make_payment amount pm rn pd = .error e) →
      (r.make_payment_db ps amount pm rn pd).1 = r ∧
      (r.make_payment_db ps amount pm rn pd).2.1 = ps) ∧
    (∀ r2 pay, r.make_payment amount pm rn pd = .ok (r2, pay) →
      r2.paid_amount = r.paid_amount + amount ∧
      r2.total_amount = r.total_amount ∧
      pay.amount = amount ∧
      (r.paid_amount + amount ≥ r.total_amount →
        r2.status = "paid" ∧ r2.payment_date = some pd) ∧
      (r.paid_amount + amount < r.total_amount → r2.status = "partially_paid")) ∧
    ((∃ e, q.make_payment amount pm rn pd = .error e) ↔
      (amount ≤ 0 ∨ q.paid_amount + amount > q.total_amount)) ∧
    ((∃ e, q.make_payment amount pm rn pd = .error e) →
      (q.make_payment_db qs amount pm rn pd).1 = q ∧
      (q.make_payment_db qs amount pm rn pd).2.1 = qs) ∧
    (∀ q2 pay, q.make_payment amount pm rn pd = .ok (q2, pay) →
      q2.paid_amount = q.paid_amount + amount ∧
      q2.total_amount = q.total_amount ∧
      pay.amount = amount ∧
      (q.paid_amount + amount ≥ q.total_amount →
        q2.status = "paid" ∧ q2.payment_date = some pd) ∧
      (q.paid_amount + amount < q.total_amount → q2.status = "partially_paid")) := by
  refine ⟨ar_make_payment_error_iff r amount pm rn pd, ?_,
    fun r2 pay hok => ar_make_payment_success r amount pm rn pd hr r2 pay hok,
    ap_make_payment_error_iff q amount pm rn pd, ?_,
    fun q2 pay hok => ap_make_payment_success q amount pm rn pd hq q2 pay hok⟩
  · rintro ⟨e, he⟩
    constructor <;> simp [AccountsReceivable.make_payment_db, he]
  · rintro ⟨e, he⟩
    constructor <;> simp [AccountsPayable.make_payment_db, he]

/-- C5 witness: paying 30 on the sample receivable of 100 succeeds,
raises `paid_amount` to 30 and moves the status to `partially_paid`. -/
theorem C5_make_payment_witness :
    (0 : ℚ) ≤ exAR.paid_amount ∧ (0 : ℚ) ≤ exAP.paid_amount ∧
    exAR.make_payment 30 "pix" "" 20240101 = .ok (exAR2, exPay) ∧
    exAR2.paid_amount = exAR.paid_amount + 30 ∧
    exAR2.status = "partially_paid" := by
  have h := C5_make_payment exAR exAP 30 "pix" "" 20240101 [] []
    (by norm_num [exAR]) (by norm_num [exAP])
  have hok : exAR.make_payment 30 "pix" "" 20240101 = .ok (exAR2, exPay) := by
    norm_num [AccountsReceivable.make_payment, AccountsReceivable.total_amount,
      exAR, exAR2, exPay]
  have hs := h.2.2.1 exAR2 exPay hok
  exact ⟨by norm_num [exAR], by norm_num [exAP], hok, hs.1,
    hs.2.2.2.2 (by norm_num [exAR, AccountsReceivable.total_amount])⟩

/-- C6 counterexample: the `start_production` viewset action answers a
non-pending order with a handmade 400 response whose body is
`{error: string}` - an API error that is not raised as a DRF exception
and is not shaped like the fixed `{error: {code, message, details}}`
envelope. -/
theorem C6_error_envelope_counterexample :
    (start_production_action "completed" (.ok ()) Json.null).status_code = 400 ∧
    isErrorEnvelope (start_production_action "completed" (.ok ()) Json.null).data = false :=
  ⟨rfl, rfl⟩

/-- C6 as amended: every exception the DRF default handler recognizes is
reshaped by `custom_exception_handler` into the fixed
`{error: {code, message, details}}` envelope with the same status code,
and the `code` member is `get_error_code` of the HTTP status code alone;
unrecognized exceptions pass through; however, some viewset actions
build `{error: string}` error responses by hand, outside this envelope. -/
theorem C6_error_envelope_amended (r : DRFResponse) :
    custom_exception_handler none = none ∧
    (∃ msg det,
      custom_exception_handler (some r) = some
        { status_code := r.status_code
          data := Json.obj [("error", Json.obj
            [("code", Json.str (get_error_code r.status_code)),
             ("message", Json.str msg),
             ("details", det)])] } ∧
      isErrorEnvelope (Json.obj [("error", Json.obj
        [("code", Json.str (get_error_code r.status_code)),
         ("message", Json.str msg),
         ("details", det)])]) = true) :=
  ⟨rfl, get_error_message r.status_code r.data, format_error_details r.data, rfl, rfl⟩

/-- C7: every validator list attached to an amount or percentage field
rejects every negative value, and the financial form `clean` methods
reject a due date earlier than the issue date (receivable) or the
invoice date (payable). -/
theorem C7_validators_and_date_ordering (vs : List MinValueValidator) (x : ℚ)
    (hvs : vs ∈ amountFieldValidatorLists) (hx : x < 0)
    (i1 d1 i2 d2 : Int) :
    passesValidators vs x = false ∧
    passesValidators customerDiscountValidators x = false ∧
    (d1 < i1 → ∃ e, AccountsReceivableForm.clean (some i1) (some d1) = .error e) ∧
    (d2 < i2 → ∃ e, AccountsPayableForm.clean (some i2) (some d2) = .error e) := by
  have h0 : ¬ (0 : ℚ) ≤ x := not_le.mpr hx
  have h100 : ¬ (100 : ℚ) ≤ x := not_le.mpr (lt_trans hx (by norm_num))
  have h001 : ¬ (1 / 1000 : ℚ) ≤ x := not_le.mpr (lt_trans hx (by norm_num))
  have h01 : ¬ (1 / 100 : ℚ) ≤ x := not_le.mpr (lt_trans hx (by norm_num))
  refine ⟨?_, ?_, fun hd => ?_, fun hd => ?_⟩
  · simp only [amountFieldValidatorLists, List.mem_cons, List.not_mem_nil, or_false] at hvs
    rcases hvs with rfl | rfl | rfl | rfl <;>
      simp [passesValidators, MinValueValidator.validate, h0, h100, h001, h01] <;>
      linarith
  · simp [customerDiscountValidators, passesValidators, MinValueValidator.validate, h0, h100]
  · exact ⟨"A data de vencimento deve ser posterior à data de emissão.",
      by simp [AccountsReceivableForm.clean, hd]⟩
  · exact ⟨"A data de vencimento deve ser posterior à data da fatura.",
      by simp [AccountsPayableForm.clean, hd]⟩

/-- C7 witness: the plain non-negativity list rejects -1, the customer
discount validator list rejects -1, and both financial forms reject a
due date of 3 against an issue (resp. invoice) date of 5. -/
theorem C7_validators_and_date_ordering_witness :
    [(⟨0⟩ : MinValueValidator)] ∈ amountFieldValidatorLists ∧
    (-1 : ℚ) < 0 ∧
    passesValidators [⟨0⟩] (-1) = false ∧
    passesValidators customerDiscountValidators (-1) = false ∧
    (∃ e, AccountsReceivableForm.clean (some 5) (some 3) = .error e) ∧
    (∃ e, AccountsPayableForm.clean (some 5) (some 3) = .error e) := by
  have h := C7_validators_and_date_ordering [⟨0⟩] (-1)
    (by simp [amountFieldValidatorLists]) (by norm_num) 5 3 5 3
  exact ⟨by simp [amountFieldValidatorLists], by norm_num, h.1, h.2.1,
    h.2.2.1 (by norm_num), h.2.2.2 (by norm_num)⟩

/-- C8 counterexample: deleting a supplier that has no related materials
removes the row from the database instead of marking it inactive, so the
delete lifecycle is not a soft delete for every entity. -/
theorem C8_soft_delete_counterexample :
    SupplierDeleteView.delete exSupplier false = DeleteOutcome.removed ∧
    (DeleteOutcome.removed : DeleteOutcome Supplier) ≠
      DeleteOutcome.kept { exSupplier with is_active := false } :=
  ⟨rfl, fun h => DeleteOutcome.noConfusion h⟩

/-- C8 as amended: the employee and category delete views always soft
delete - the row is kept with `is_active = False` and every other field
unchanged (the employee delete also deactivates the linked user row) -
while the supplier delete view soft deletes only when the supplier has
related materials and otherwise removes the row. -/
theorem C8_soft_delete_amended (s : Supplier) (e : Employee) (u : User) (c : Category) :
    (∃ s2, SupplierDeleteView.delete s true = .kept s2 ∧ s2.is_active = false ∧
      s2.name = s.name ∧ s2.email = s.email ∧ s2.phone = s.phone) ∧
    SupplierDeleteView.delete s false = .removed ∧
    (∃ e2 u2, EmployeeDeleteView.delete e u = (.kept e2, .kept u2) ∧
      e2.is_active = false ∧ e2.position = e.position ∧ e2.salary = e.salary ∧
      u2.is_active = false ∧ u2.username = u.username) ∧
    (∃ c2, CategoryDeleteView.delete c = .kept c2 ∧ c2.is_active = false ∧
      c2.name = c.name ∧ c2.description = c.description) :=
  ⟨⟨_, rfl, rfl, rfl, rfl, rfl⟩, rfl,
    ⟨_, _, rfl, rfl, rfl, rfl, rfl, rfl⟩, ⟨_, rfl, rfl, rfl, rfl⟩⟩

end CoffeeFactory
